import Mathlib

/-!
Shallow embedding of the analysis pipeline of this repository
(`src/backend/models/price_prediction.py` and `src/backend/app.py`).

Python/numpy floating-point values are modelled as exact numbers: the raw
record fields carry rationals, and the transcendental computations
(logarithm, square root, exponential) live in `ℝ`.  Where numpy or torch
can produce `nan` or an infinity, the value type `NpF` makes that explicit;
a raised Python exception is an `Except.error` carrying the message.
-/

namespace LOOK

/-- Raw token-data record consumed by `PricePredictionModel.predict`
(`token_data.get` of the three history fields; `metadata` is irrelevant to
the numeric pipeline and omitted). -/
structure TokenDataRecord where
  price_history : List ℚ
  volume_history : List ℚ
  liquidity_data : List ℚ

/-- Consecutive differences `np.diff`: entry `i` is `x[i+1] - x[i]`. -/
def np_diff (l : List ℚ) : List ℚ :=
  List.zipWith (fun a b => a - b) l.tail l

/-- Python slice `price_history[-5:]`: the last up-to-5 entries. -/
def last_five (l : List ℚ) : List ℚ :=
  l.drop (l.length - 5)

/-- Mean `np.mean` of a rational array; `none` models the `nan` numpy
returns (with a warning, not an exception) on an empty array. -/
def np_mean (l : List ℚ) : Option ℚ :=
  if l.length = 0 then none else some (l.sum / l.length)

/-- Comparison `x > 0` on a possibly-`nan` mean: in Python, `nan > 0` is `False`. -/
def gt_zero : Option ℚ → Bool
  | none => false
  | some m => decide (0 < m)

/-- Comparison `x < 0` on a possibly-`nan` mean: in Python, `nan < 0` is `False`. -/
def lt_zero : Option ℚ → Bool
  | none => false
  | some m => decide (m < 0)

/-- Embedding of `PricePredictionModel._analyze_trends`: for a non-empty
price history, the mean of the consecutive differences of the last up-to-5
entries picks the single label that is appended to `trends`. -/
def analyze_trends (price_history : List ℚ) : List String :=
  if price_history.length > 0 then
    let recent_trend := np_mean (np_diff (last_five price_history))
    if gt_zero recent_trend then ["Upward Trend"]
    else if lt_zero recent_trend then ["Downward Trend"]
    else ["Sideways Movement"]
  else []

/-- Label rule as the spec states it, for the refinement check of the trend
analysis: the sign of the mean consecutive difference picks the label. -/
def trend_label (m : ℚ) : String :=
  if 0 < m then "Upward Trend"
  else if m < 0 then "Downward Trend"
  else "Sideways Movement"

/-- Mean of the consecutive differences of the last up-to-5 price entries,
as the spec describes it (well-defined once there are at least 2 entries). -/
def mean_diff_recent (ph : List ℚ) : ℚ :=
  (np_diff (last_five ph)).sum / ((np_diff (last_five ph)).length : ℚ)

noncomputable section

/-- A numpy/torch floating-point value, with rounding abstracted away: a
finite real number, one of the two infinities, or `nan`. -/
inductive NpF where
  | fin : ℝ → NpF
  | pinf : NpF
  | ninf : NpF
  | nan : NpF

namespace NpF

/-- IEEE-754 subtraction on `NpF` values. -/
def sub : NpF → NpF → NpF
  | nan, _ => nan
  | _, nan => nan
  | fin x, fin y => fin (x - y)
  | fin _, pinf => ninf
  | fin _, ninf => pinf
  | pinf, fin _ => pinf
  | pinf, pinf => nan
  | pinf, ninf => pinf
  | ninf, fin _ => ninf
  | ninf, pinf => ninf
  | ninf, ninf => nan

/-- IEEE-754 addition on `NpF` values. -/
def add : NpF → NpF → NpF
  | nan, _ => nan
  | _, nan => nan
  | fin x, fin y => fin (x + y)
  | fin _, pinf => pinf
  | fin _, ninf => ninf
  | pinf, fin _ => pinf
  | pinf, pinf => pinf
  | pinf, ninf => nan
  | ninf, fin _ => ninf
  | ninf, pinf => nan
  | ninf, ninf => ninf

/-- Squaring (the elementwise square inside `np.std`). -/
def sq : NpF → NpF
  | fin x => fin (x ^ 2)
  | pinf => pinf
  | ninf => pinf
  | nan => nan

/-- Division by an array length (only ever applied with `1 ≤ n`, so the
infinite cases keep their sign). -/
def div_nat : NpF → ℕ → NpF
  | fin x, n => fin (x / n)
  | pinf, _ => pinf
  | ninf, _ => ninf
  | nan, _ => nan

/-- Square root `np.sqrt`: negative finite values and `-inf` give `nan`. -/
def sqrt : NpF → NpF
  | fin x => if x < 0 then nan else fin (Real.sqrt x)
  | pinf => pinf
  | ninf => nan
  | nan => nan

/-- Multiplication by a positive finite real constant (only ever used with
the annualization factor `sqrt 365`, which is positive). -/
def scale : NpF → ℝ → NpF
  | fin x, c => fin (x * c)
  | pinf, _ => pinf
  | ninf, _ => ninf
  | nan, _ => nan

end NpF

/-- Sum `np.sum` over possibly non-finite values. -/
def npf_sum (l : List NpF) : NpF :=
  l.foldl NpF.add (NpF.fin 0)

/-- Mean `np.mean` over possibly non-finite values (`nan` on an empty array). -/
def npf_mean (l : List NpF) : NpF :=
  if l.length = 0 then NpF.nan else NpF.div_nat (npf_sum l) l.length

/-- Standard deviation `np.std` (population form, `ddof = 0`): the square
root of the mean of the squared deviations from the mean. -/
def npf_std (l : List NpF) : NpF :=
  NpF.sqrt (npf_mean (l.map (fun x => NpF.sq (NpF.sub x (npf_mean l)))))

/-- Elementwise `np.log` on an exact real input: positive arguments give the
real logarithm, zero gives `-inf`, negative arguments give `nan` (numpy
warns but does not raise). -/
def np_log (p : ℝ) : NpF :=
  if 0 < p then NpF.fin (Real.log p) else if p = 0 then NpF.ninf else NpF.nan

/-- Consecutive differences `np.diff` over possibly non-finite values. -/
def npf_diff (l : List NpF) : List NpF :=
  List.zipWith NpF.sub l.tail l

/-- Embedding of `PricePredictionModel._calculate_volatility`: with at least
2 prices, the standard deviation of `np.diff(np.log(price_history))` scaled
by `np.sqrt(365)`; otherwise `0.0`. -/
def calculate_volatility (price_history : List ℚ) : NpF :=
  if price_history.length > 1 then
    NpF.scale (npf_std (npf_diff (price_history.map (fun p : ℚ => np_log (p : ℝ)))))
      (Real.sqrt 365)
  else NpF.fin 0

/-- Arithmetic mean of a rational series as an exact value (`_normalize`
and the variance only apply it to non-empty series). -/
def mean_q (l : List ℚ) : ℚ :=
  l.sum / l.length

/-- Population variance of a rational series: the mean of the squared
deviations from the mean. -/
def var_q (l : List ℚ) : ℚ :=
  (l.map (fun x => (x - mean_q l) ^ 2)).sum / l.length

/-- Standard deviation `np.std` of a finite rational series, as a real. -/
def std_r (l : List ℚ) : ℝ :=
  Real.sqrt ((var_q l : ℝ))

/-- The normalization epsilon `1e-8` of `_normalize`. -/
def eps : ℝ := 1 / 100000000

/-- Embedding of `PricePredictionModel._normalize`: an empty series becomes
`np.zeros(10)`, any other series is standard-score normalized with the
epsilon-guarded divisor `np.std(data) + 1e-8`. -/
def normalize (data : List ℚ) : List ℝ :=
  if data.length = 0 then List.replicate 10 0
  else data.map (fun x : ℚ => ((x : ℝ) - (mean_q data : ℝ)) / (std_r data + eps))

/-- Stacking `np.column_stack` of three 1-D arrays into rows of 3 columns;
numpy raises `ValueError` when the lengths disagree. -/
def column_stack (a b c : List ℝ) : Except String (List (ℝ × ℝ × ℝ)) :=
  if a.length = b.length ∧ b.length = c.length then
    Except.ok (List.zipWith (fun x p => (x, p.1, p.2)) a (b.zip c))
  else Except.error "all the input array dimensions must match exactly"

/-- Embedding of `PricePredictionModel._extract_features`: the rows of the
resulting tensor of shape `[1, rows, 3]` (the leading batch dimension added
by `unsqueeze(0)` is structural and always 1, and the 3 columns are the
three normalized series). -/
def extract_features (token_data : TokenDataRecord) : Except String (List (ℝ × ℝ × ℝ)) :=
  column_stack (normalize token_data.price_history)
    (normalize token_data.volume_history)
    (normalize token_data.liquidity_data)

/-- Mean of a real list (only applied to non-empty tensors). -/
def mean_r (l : List ℝ) : ℝ :=
  l.sum / l.length

/-- Standard deviation `torch.Tensor.std()`: torch defaults to the sample
form with Bessel correction (`ddof = 1`), so a tensor with fewer than 2
elements has 0 degrees of freedom and the result is `nan`. -/
def torch_std (t : List ℝ) : NpF :=
  if t.length ≤ 1 then NpF.nan
  else NpF.fin (Real.sqrt ((t.map (fun x => (x - mean_r t) ^ 2)).sum / ((t.length : ℝ) - 1)))

/-- Logistic squashing `torch.sigmoid`, extended to non-finite inputs the
way torch computes it (`sigmoid nan = nan`). -/
def sigmoid : NpF → NpF
  | NpF.fin x => NpF.fin (1 / (1 + Real.exp (-x)))
  | NpF.pinf => NpF.fin 1
  | NpF.ninf => NpF.fin 0
  | NpF.nan => NpF.nan

/-- Embedding of `PricePredictionModel._calculate_confidence`: the sigmoid of
the standard deviation of the prediction tensor (given flattened). -/
def calculate_confidence (prediction : List ℝ) : NpF :=
  sigmoid (torch_std prediction)

/-- Predicate of the spec on confidence scores: a finite value strictly
inside the open unit interval (in particular not `nan`). -/
def in_open_unit : NpF → Prop
  | NpF.fin y => 0 < y ∧ y < 1
  | _ => False

/-- The success dictionary returned by `predict`. -/
structure PredictionResult where
  predicted_price : ℝ
  confidence_score : NpF
  price_trends : List String
  volatility_index : NpF

/-- The error dictionary returned by `predict` on a caught exception. -/
structure ErrorResult where
  error : String
  details : String

/-- Forward pass of the `LSTM` module: torch validates that the size of the
last input dimension equals the configured `input_size` before any numeric
work.  `PricePredictionModel` builds the module with `input_size = 10`,
while `_extract_features` always produces 3 feature columns, so the check
fails on every reachable input and the call raises `RuntimeError`.  The
numeric output on a well-shaped input is unreachable (and would depend on
the randomly initialised, untrained weights), so it is not modelled. -/
def lstm_forward (_features : List (ℝ × ℝ × ℝ)) : Except String ℝ :=
  Except.error "RuntimeError: input.size(-1) must be equal to input_size"

/-- The `try/except Exception` wrapper of `predict`: a raised exception
anywhere in the body is converted into the error dictionary with the stable
message `"Price prediction failed"` and the exception text as `details`. -/
def catch_errors (body : Except String (PredictionResult ⊕ ErrorResult)) :
    Except String (PredictionResult ⊕ ErrorResult) :=
  match body with
  | Except.ok v => Except.ok v
  | Except.error e => Except.ok (Sum.inr { error := "Price prediction failed", details := e })

/-- Embedding of `PricePredictionModel.predict`, parametric in the scoring
function so the `try/except` boundary is settled for any behaviour of the
torch model; an `Except.error` models a raised Python exception.  The `try`
block covers the whole body: feature extraction, the forward pass, and the
assembly of the result dictionary.  The prediction tensor passed to
`_calculate_confidence` has shape `[1, 1]`, i.e. the single predicted
scalar. -/
def predict_with (scorer : List (ℝ × ℝ × ℝ) → Except String ℝ)
    (token_data : TokenDataRecord) : Except String (PredictionResult ⊕ ErrorResult) :=
  catch_errors (do
    let features ← extract_features token_data
    let prediction ← scorer features
    pure (Sum.inl
      { predicted_price := prediction
        confidence_score := calculate_confidence [prediction]
        price_trends := analyze_trends token_data.price_history
        volatility_index := calculate_volatility token_data.price_history }))

/-- Embedding of `PricePredictionModel.predict` with the actual model. -/
def predict (token_data : TokenDataRecord) : Except String (PredictionResult ⊕ ErrorResult) :=
  predict_with lstm_forward token_data

/-- The chains for which `analyze_token` constructs a client. -/
def supported_chains : List String := ["solana", "ethereum", "cosmos"]

/-- Request body of the `analyze` route. -/
structure TokenAnalysisRequest where
  token_address : String
  chain_type : String
  analysis_type : List String

/-- A raised `fastapi.HTTPException`, as the route surfaces it. -/
structure HTTPError where
  status_code : ℕ
  detail : String

/-- Embedding of the `analyze_token` route handler of `src/backend/app.py`,
parametric in the downstream pipeline (data retrieval plus the three
analysis models, whose modules are outside this repository snapshot); the
boolean records whether that pipeline was invoked.  For a supported chain
the whole pipeline runs inside the `try`, and any raise is converted by the
blanket `except Exception` into `HTTPException(status_code=500)`.  For an
unsupported chain the handler executes `raise HTTPException(status_code=400,
message=...)` — but `fastapi.HTTPException` accepts no `message` keyword, so
this line itself raises `TypeError` before constructing any exception, and
the blanket `except Exception` again surfaces `HTTPException(status_code=500,
detail=str(e))`; the intended 400 response is unreachable. -/
def analyze_token {α : Type} (pipeline : TokenAnalysisRequest → Except String α)
    (request : TokenAnalysisRequest) : (HTTPError ⊕ α) × Bool :=
  if request.chain_type ∈ supported_chains then
    match pipeline request with
    | Except.ok response => (Sum.inr response, true)
    | Except.error e => (Sum.inl ⟨500, e⟩, true)
  else
    (Sum.inl ⟨500, "TypeError: unexpected keyword argument message"⟩, false)

end

/-! ## Theorems -/

/-- C10: the trend analysis emits at most one label for any input history,
even though its result type is a list. -/
theorem analyze_trends_at_most_one_label (price_history : List ℚ) :
    (analyze_trends price_history).length ≤ 1 := by
  simp only [analyze_trends]
  split
  · split
    · simp
    · split <;> simp
  · simp

/-- C3 (counterexample): a price history of length 1 does not give an empty
trend list; `np.mean` of the empty difference array is `nan`, both `nan > 0`
and `nan < 0` are false, and the `else` branch appends a label. -/
theorem analyze_trends_singleton_cex :
    analyze_trends [5] = ["Sideways Movement"] := by
  decide

/-- C3 (amended): a price history of length 0 yields an empty trend list,
but a history of length 1 yields the single label `"Sideways Movement"`. -/
theorem analyze_trends_short_history :
    analyze_trends ([] : List ℚ) = [] ∧
    ∀ p : ℚ, analyze_trends [p] = ["Sideways Movement"] := by
  refine ⟨by decide, fun p => ?_⟩
  simp [analyze_trends, last_five, np_diff, np_mean, gt_zero, lt_zero]

/-- C8: the three example histories get their expected labels, and for any
history with at least 2 entries the emitted label is exactly the spec's
rule applied to the mean of the consecutive differences of the last
up-to-5 entries. -/
theorem analyze_trends_label_rule :
    analyze_trends [1, 2, 3, 4, 5, 6] = ["Upward Trend"] ∧
    analyze_trends [6, 5, 4, 3, 2, 1] = ["Downward Trend"] ∧
    analyze_trends [3, 3, 3, 3, 3, 3] = ["Sideways Movement"] ∧
    ∀ ph : List ℚ, 2 ≤ ph.length →
      analyze_trends ph = [trend_label (mean_diff_recent ph)] := by
  refine ⟨?_, ?_, ?_, ?_⟩
  · norm_num [analyze_trends, np_mean, np_diff, last_five, gt_zero, lt_zero]
  · norm_num [analyze_trends, np_mean, np_diff, last_five, gt_zero, lt_zero]
  · norm_num [analyze_trends, np_mean, np_diff, last_five, gt_zero, lt_zero]
  · intro ph h
    have hne : (np_diff (last_five ph)).length ≠ 0 := by
      simp only [np_diff, last_five, List.length_zipWith, List.length_tail,
        List.length_drop]
      omega
    rw [analyze_trends, if_pos (by omega : ph.length > 0)]
    rw [np_mean, if_neg hne]
    simp only [gt_zero, lt_zero, decide_eq_true_eq, trend_label, mean_diff_recent]
    split_ifs <;> rfl

/-! ### Helper lemmas about the numpy value computations -/

theorem np_log_pos {x : ℝ} (h : 0 < x) : np_log x = NpF.fin (Real.log x) := by
  rw [np_log, if_pos h]

theorem np_log_zero : np_log 0 = NpF.ninf := by
  rw [np_log]
  norm_num

theorem np_log_neg {x : ℝ} (h : x < 0) : np_log x = NpF.nan := by
  rw [np_log, if_neg (by linarith), if_neg (by linarith)]

theorem npf_std_fin_singleton (x : ℝ) : npf_std [NpF.fin x] = NpF.fin 0 := by
  simp [npf_std, npf_mean, npf_sum, NpF.add, NpF.div_nat, NpF.sub, NpF.sq, NpF.sqrt]

theorem npf_std_nan_singleton : npf_std [NpF.nan] = NpF.nan := by
  simp [npf_std, npf_mean, npf_sum, NpF.add, NpF.div_nat, NpF.sub, NpF.sq, NpF.sqrt]

theorem npf_std_pinf_singleton : npf_std [NpF.pinf] = NpF.nan := by
  simp [npf_std, npf_mean, npf_sum, NpF.add, NpF.div_nat, NpF.sub, NpF.sq, NpF.sqrt]

/-- C4 (counterexample): the history `[100, 200]` has two positive, unequal
prices, yet the volatility is exactly `0.0`: `np.diff` produces a single
log-return and `np.std` (population form) of a single value is `0`. -/
theorem calculate_volatility_two_unequal_cex :
    calculate_volatility [100, 200] = NpF.fin 0 := by
  rw [calculate_volatility, if_pos (by norm_num)]
  have h1 : np_log ((100:ℚ):ℝ) = NpF.fin (Real.log ((100:ℚ):ℝ)) := np_log_pos (by norm_num)
  have h2 : np_log ((200:ℚ):ℝ) = NpF.fin (Real.log ((200:ℚ):ℝ)) := np_log_pos (by norm_num)
  simp only [List.map_cons, List.map_nil, h1, h2, npf_diff, List.tail_cons,
    List.zipWith_cons_cons, List.zipWith_nil_left, NpF.sub, npf_std_fin_singleton,
    NpF.scale, zero_mul]

/-- C4 (amended): for every history of exactly two positive prices, equal or
not, the volatility is exactly `0.0`. -/
theorem calculate_volatility_two_prices (p q : ℚ) (hp : 0 < p) (hq : 0 < q) :
    calculate_volatility [p, q] = NpF.fin 0 := by
  rw [calculate_volatility, if_pos (by norm_num)]
  have h1 : np_log ((p:ℚ):ℝ) = NpF.fin (Real.log ((p:ℚ):ℝ)) := np_log_pos (by exact_mod_cast hp)
  have h2 : np_log ((q:ℚ):ℝ) = NpF.fin (Real.log ((q:ℚ):ℝ)) := np_log_pos (by exact_mod_cast hq)
  simp only [List.map_cons, List.map_nil, h1, h2, npf_diff, List.tail_cons,
    List.zipWith_cons_cons, List.zipWith_nil_left, NpF.sub, npf_std_fin_singleton,
    NpF.scale, zero_mul]

/-- C4 (witness): the amended theorem applied at the concrete input `[100, 200]`. -/
theorem calculate_volatility_two_prices_witness :
    calculate_volatility [(100:ℚ), 200] = NpF.fin 0 :=
  calculate_volatility_two_prices 100 200 (by norm_num) (by norm_num)

/-- C5 (counterexample): a history containing a negative price does not give
`0.0`: `np.log(-1)` is `nan` and the `nan` propagates to the result, which
numpy returns without raising. -/
theorem calculate_volatility_nonpositive_cex :
    calculate_volatility [1, -1] = NpF.nan ∧ NpF.nan ≠ NpF.fin 0 := by
  constructor
  · rw [calculate_volatility, if_pos (by norm_num)]
    have h1 : np_log ((1:ℚ):ℝ) = NpF.fin (Real.log ((1:ℚ):ℝ)) := np_log_pos (by norm_num)
    have h2 : np_log ((-1:ℚ):ℝ) = NpF.nan := np_log_neg (by norm_num)
    simp only [List.map_cons, List.map_nil, h1, h2, npf_diff, List.tail_cons,
      List.zipWith_cons_cons, List.zipWith_nil_left, NpF.sub, npf_std_nan_singleton,
      NpF.scale]
  · simp

/-- C5 (amended): with fewer than 2 entries the volatility is exactly `0.0`;
but when a logarithm is undefined the result is `nan`, not `0.0` — shown for
every 2-entry history whose first price is non-positive. -/
theorem calculate_volatility_guard :
    (∀ ph : List ℚ, ph.length < 2 → calculate_volatility ph = NpF.fin 0) ∧
    (∀ p q : ℚ, p ≤ 0 → calculate_volatility [p, q] = NpF.nan) := by
  constructor
  · intro ph h
    rw [calculate_volatility, if_neg (by omega)]
  · intro p q hp
    rw [calculate_volatility, if_pos (by norm_num)]
    rcases lt_or_eq_of_le hp with hlt | heq
    · have h1 : np_log ((p:ℚ):ℝ) = NpF.nan := np_log_neg (by exact_mod_cast hlt)
      have hsub : NpF.sub (np_log ((q:ℚ):ℝ)) NpF.nan = NpF.nan := by
        cases np_log ((q:ℚ):ℝ) <;> rfl
      simp only [List.map_cons, List.map_nil, h1, npf_diff, List.tail_cons,
        List.zipWith_cons_cons, List.zipWith_nil_left, hsub, npf_std_nan_singleton,
        NpF.scale]
    · subst heq
      have h1 : np_log ((0:ℚ):ℝ) = NpF.ninf := by
        rw [Rat.cast_zero]
        exact np_log_zero
      rcases lt_trichotomy (q:ℝ) 0 with hq | hq | hq
      · have h2 : np_log ((q:ℚ):ℝ) = NpF.nan := np_log_neg hq
        simp only [List.map_cons, List.map_nil, h1, h2, npf_diff, List.tail_cons,
          List.zipWith_cons_cons, List.zipWith_nil_left, NpF.sub, npf_std_nan_singleton,
          NpF.scale]
      · have h2 : np_log ((q:ℚ):ℝ) = NpF.ninf := by
          rw [hq]
          exact np_log_zero
        simp only [List.map_cons, List.map_nil, h1, h2, npf_diff, List.tail_cons,
          List.zipWith_cons_cons, List.zipWith_nil_left, NpF.sub, npf_std_nan_singleton,
          NpF.scale]
      · have h2 : np_log ((q:ℚ):ℝ) = NpF.fin (Real.log ((q:ℚ):ℝ)) := np_log_pos hq
        simp only [List.map_cons, List.map_nil, h1, h2, npf_diff, List.tail_cons,
          List.zipWith_cons_cons, List.zipWith_nil_left, NpF.sub, npf_std_pinf_singleton,
          NpF.scale]

/-- C5 (witness): the amended theorem applied at the concrete inputs `[]`
and `[0, 100]`. -/
theorem calculate_volatility_guard_witness :
    calculate_volatility ([] : List ℚ) = NpF.fin 0 ∧
    calculate_volatility [(0:ℚ), 100] = NpF.nan :=
  ⟨calculate_volatility_guard.1 [] (by decide),
    calculate_volatility_guard.2 0 100 le_rfl⟩

/-! ### Confidence score -/

theorem sigmoid_fin_in_unit (s : ℝ) : in_open_unit (sigmoid (NpF.fin s)) := by
  simp only [sigmoid, in_open_unit]
  constructor
  · positivity
  · rw [div_lt_one (by positivity)]
    linarith [Real.exp_pos (-s)]

/-- C6 (counterexample): the prediction tensor of this model holds the single
scalar read out of the `[1, 1]` output, and `torch.std` of a one-element
tensor is `nan` (Bessel correction with 0 degrees of freedom), so the
confidence score is `nan` — not a value strictly between 0 and 1. -/
theorem calculate_confidence_singleton_cex :
    calculate_confidence [(5:ℝ)] = NpF.nan ∧ ¬ in_open_unit NpF.nan := by
  refine ⟨?_, fun h => h⟩
  rw [calculate_confidence, torch_std, if_pos (by norm_num)]
  rfl

/-- C6 (amended): the confidence score is the logistic squashing of the
torch standard deviation of the prediction tensor; for a tensor with at
least 2 elements (where that standard deviation is a real number) it lies
strictly inside the open unit interval, but for the single-element tensor
this model actually produces the standard deviation, and hence the
confidence, is `nan`. -/
theorem calculate_confidence_in_unit (t : List ℝ) (h : 2 ≤ t.length) :
    in_open_unit (calculate_confidence t) := by
  rw [calculate_confidence, torch_std, if_neg (by omega)]
  exact sigmoid_fin_in_unit _

/-- C6 (witness): the amended theorem applied at the two-element tensor `[0, 1]`. -/
theorem calculate_confidence_in_unit_witness :
    in_open_unit (calculate_confidence [0, 1]) :=
  calculate_confidence_in_unit [0, 1] (by simp)

/-! ### Normalization -/

theorem mean_q_replicate (n : ℕ) (c : ℚ) (h : n ≠ 0) :
    mean_q (List.replicate n c) = c := by
  rw [mean_q, List.sum_replicate, List.length_replicate, nsmul_eq_mul]
  exact mul_div_cancel_left₀ c (Nat.cast_ne_zero.mpr h)

/-- C7: the divisor of `_normalize` is `np.std(data) + 1e-8` and is strictly
positive for every series; a constant series (of any length, in particular
longer than the window) normalizes to all zeros; and an empty series maps to
the zero-filled column of the window length 10. -/
theorem normalize_never_divides_by_zero :
    (∀ data : List ℚ, 0 < std_r data + eps) ∧
    (∀ (n : ℕ) (c : ℚ), 10 < n →
      normalize (List.replicate n c) = List.replicate n 0) ∧
    normalize ([] : List ℚ) = List.replicate 10 0 := by
  refine ⟨fun data => ?_, fun n c hn => ?_, by rw [normalize]; simp⟩
  · rw [std_r, eps]
    positivity
  · rw [normalize, if_neg (by simp; omega)]
    rw [List.map_replicate, mean_q_replicate n c (by omega)]
    simp

/-- C7 (witness): the theorem instantiated at a singleton series, at the
constant series of length 11, and at the empty series. -/
theorem normalize_never_divides_by_zero_witness :
    0 < std_r [1] + eps ∧
    normalize (List.replicate 11 3) = List.replicate 11 0 ∧
    normalize ([] : List ℚ) = List.replicate 10 0 :=
  ⟨normalize_never_divides_by_zero.1 [1],
    normalize_never_divides_by_zero.2.1 11 3 (by norm_num),
    normalize_never_divides_by_zero.2.2⟩

/-! ### Feature extraction -/

theorem normalize_length (data : List ℚ) :
    (normalize data).length = if data.length = 0 then 10 else data.length := by
  rw [normalize]
  split <;> simp

/-- C1 (counterexample): for three histories of common length 3 the feature
matrix has 3 rows, not `window_size = 10`: `_extract_features` never pads or
truncates a non-empty series to the window. -/
theorem extract_features_shape_cex :
    (extract_features ⟨[1, 2, 3], [1, 2, 3], [1, 2, 3]⟩).map List.length = Except.ok 3 ∧
    (extract_features ⟨[1, 2, 3], [1, 2, 3], [1, 2, 3]⟩).map List.length ≠ Except.ok 10 := by
  have h3 : (normalize [(1:ℚ), 2, 3]).length = 3 := by
    rw [normalize_length]
    norm_num
  have hmain : (extract_features ⟨[1, 2, 3], [1, 2, 3], [1, 2, 3]⟩).map List.length
      = Except.ok 3 := by
    rw [extract_features, column_stack, if_pos ⟨rfl, rfl⟩]
    simp [Except.map, List.length_zipWith, List.length_zip, h3]
  exact ⟨hmain, by rw [hmain]; simp⟩

/-- C1 (amended): feature extraction returns a matrix of shape
`[1, L, 3]` where `L` is the common length of the three normalized columns
(an empty source series contributes a zero column of length 10, any other
series keeps its own length); and when the three normalized columns have
different lengths, `np.column_stack` raises instead of padding. -/
theorem extract_features_shape :
    (∀ r : TokenDataRecord,
      (normalize r.price_history).length = (normalize r.volume_history).length →
      (normalize r.volume_history).length = (normalize r.liquidity_data).length →
      (extract_features r).map List.length = Except.ok (normalize r.price_history).length) ∧
    (∀ r : TokenDataRecord,
      ¬ ((normalize r.price_history).length = (normalize r.volume_history).length ∧
         (normalize r.volume_history).length = (normalize r.liquidity_data).length) →
      extract_features r = Except.error "all the input array dimensions must match exactly") := by
  constructor
  · intro r h1 h2
    rw [extract_features, column_stack, if_pos ⟨h1, h2⟩]
    simp [Except.map, List.length_zipWith, List.length_zip, ← h1, ← h2]
  · intro r h
    rw [extract_features, column_stack, if_neg h]

/-- C1 (witness): the amended theorem applied to a record with three
length-2 histories (giving 2 rows) and to a record mixing lengths 1 and 2
(raising the `ValueError` of `np.column_stack`). -/
theorem extract_features_shape_witness :
    (extract_features ⟨[1, 2], [3, 4], [5, 6]⟩).map List.length
      = Except.ok (normalize [(1:ℚ), 2]).length ∧
    extract_features ⟨[1], [1, 2], [1]⟩
      = Except.error "all the input array dimensions must match exactly" :=
  ⟨extract_features_shape.1 ⟨[1, 2], [3, 4], [5, 6]⟩
      (by simp [normalize_length]) (by simp [normalize_length]),
    extract_features_shape.2 ⟨[1], [1, 2], [1]⟩
      (by simp [normalize_length])⟩

/-! ### The predict boundary -/

theorem catch_errors_ok (body : Except String (PredictionResult ⊕ ErrorResult)) :
    ∃ out, catch_errors body = Except.ok out := by
  cases body <;> exact ⟨_, rfl⟩

/-- C2: the `try/except` boundary of `predict` is total — for any behaviour
of the scoring model and any input record the result is a well-formed value
(a `PredictionResult` or an `ErrorResult`), never a propagated exception;
and with the actual model every record in fact yields the `ErrorResult`
whose `error` field is the stable string `"Price prediction failed"`. -/
theorem predict_no_unhandled_failure :
    (∀ (scorer : List (ℝ × ℝ × ℝ) → Except String ℝ) (token_data : TokenDataRecord),
      ∃ out, predict_with scorer token_data = Except.ok out) ∧
    (∀ token_data : TokenDataRecord, ∃ details,
      predict token_data = Except.ok (Sum.inr ⟨"Price prediction failed", details⟩)) := by
  constructor
  · intro scorer token_data
    rw [predict_with]
    exact catch_errors_ok _
  · intro token_data
    rw [predict, predict_with]
    cases h : extract_features token_data with
    | ok f =>
      exact ⟨"RuntimeError: input.size(-1) must be equal to input_size", rfl⟩
    | error e =>
      exact ⟨e, rfl⟩

/-- C2 (witness): the all-empty record produces a well-formed `ErrorResult`. -/
theorem predict_no_unhandled_failure_witness :
    ∃ details, predict ⟨[], [], []⟩
      = Except.ok (Sum.inr ⟨"Price prediction failed", details⟩) :=
  predict_no_unhandled_failure.2 ⟨[], [], []⟩

/-! ### The analyze route -/

/-- C9: an unsupported chain type is rejected without invoking the pipeline
(the returned flag is `false`), but the rejection surfaces as HTTP 500 — the
`message=` keyword passed to `HTTPException` raises `TypeError`, which the
blanket `except Exception` re-wraps — so it is not distinguishable from a
pipeline failure as the spec requires (and even a correctly constructed 400
would be swallowed by the same `except Exception` and re-raised as 500). -/
theorem analyze_token_unsupported_chain :
    ∀ (α : Type) (pipeline : TokenAnalysisRequest → Except String α),
      analyze_token pipeline ⟨"0xabc", "polkadot", ["price"]⟩ =
        (Sum.inl ⟨500, "TypeError: unexpected keyword argument message"⟩, false) := by
  intro α pipeline
  rw [analyze_token, if_neg (by decide)]

end LOOK
